import Mathlib

/-!
Verification of the dialogue-routing and session-memory core of `app.py`
(Flask + TinyLlama chatbot).  The Python functions `detect_intent`,
`handle_intents`, `llama_chat` and the `/chatbot` route handler are embedded
as pure Lean functions; the LLM completion call and the wall-clock hour are
passed in as explicit inputs, and the module-level `conversation_context`
dictionary is threaded through as an explicit map from user id to history.
-/

namespace Isvaryam

/-- One chat message, mirroring the `{"role": ..., "content": ...}` dicts of
`app.py`. -/
structure ChatMessage where
  role : String
  content : String
deriving DecidableEq, Repr

/-- A chat-completion request as `llama_chat` issues it:
`llm.create_chat_completion(messages=messages, stream=False)`. -/
structure ChatRequest where
  messages : List ChatMessage
  stream : Bool
deriving DecidableEq, Repr

/-- A failure of the underlying model (an exception raised by
`llm.create_chat_completion`). -/
inductive GenError where
  | err (msg : String)
deriving DecidableEq, Repr

/-- `n_ctx` passed to the `Llama` constructor in `app.py` (`CTX_SIZE = 2048`). -/
def CTX_SIZE : Nat := 2048

/-- Python list check: does `pat` occur at the head of `s`?  Helper for the
substring test of the Python `in` operator. -/
def leadsWith : List Char → List Char → Bool
  | [], _ => true
  | _ :: _, [] => false
  | p :: ps, c :: cs => p == c && leadsWith ps cs

/-- Does `pat` occur as a contiguous sublist of `s`?  Helper for `hasSub`. -/
def hasSubL (pat : List Char) : List Char → Bool
  | [] => leadsWith pat []
  | c :: cs => leadsWith pat (c :: cs) || hasSubL pat cs

/-- The Python substring operator: `pat in s` on strings. -/
def hasSub (s pat : String) : Bool := hasSubL pat.data s.data

/-- Python `str.lower()`, character by character (the core-library
`String.toLower` is exactly this map, restated over `data` so it computes). -/
def pyLower (s : String) : String := ⟨s.data.map Char.toLower⟩

/-- Python `str.strip()`: remove leading and trailing whitespace. -/
def pyStrip (s : String) : String :=
  ⟨((s.data.dropWhile Char.isWhitespace).reverse.dropWhile Char.isWhitespace).reverse⟩

/-- Python `str.startswith(pre)`. -/
def pyStartsWith (s pre : String) : Bool := leadsWith pre.data s.data

/-- The greet rule's predicate over the lowercased text:
`any(greet in t for greet in ("hi", "hello", "hey"))`. -/
def greet_pred (t : String) : Bool :=
  hasSub t "hi" || hasSub t "hello" || hasSub t "hey"

/-- The price rule's predicate over the lowercased text: `"price" in t`. -/
def price_pred (t : String) : Bool := hasSub t "price"

/-- `detect_intent` from `app.py`: lowercase the text, return `"greet"` if it
contains `"hi"`, `"hello"` or `"hey"` as a substring, else `"price"` if it
contains `"price"`, else `None`.  The two rules are checked in declaration
order. -/
def detect_intent (text : String) : Option String :=
  let t := pyLower text
  if greet_pred t then some "greet"
  else if price_pred t then some "price"
  else none

/-- The time-of-day salutation computed inside `handle_intents` from
`datetime.now().hour`. -/
def salutation (hour : Nat) : String :=
  if hour < 12 then "Good morning ☀️"
  else if hour < 17 then "Good afternoon 🌤️"
  else "Good evening 🌙"

/-- The fixed remainder of the greet reply (`f"{sal} I'm ..."`). -/
def greetTail : String := " I'm Isvaryam's assistant. How can I help you?"

/-- `handle_intents` from `app.py`; the wall-clock hour is an explicit input
(`datetime.now().hour`).  The `user_id` parameter is kept (unused), as in the
source. -/
def handle_intents (hour : Nat) (text : String) (user_id : String) : Option String :=
  let intent := detect_intent text
  if intent = some "greet" then some (salutation hour ++ greetTail)
  else if intent = some "price" then some "Our price list is coming right up! (demo reply)"
  else none

/-- Python truthiness of `intent_reply` in `if intent_reply:`: `None` and the
empty string are falsy, any other string is truthy. -/
def truthy : Option String → Bool
  | none => false
  | some s => !(s == "")

/-- The prompt `llama_chat` builds:
`messages = history + [{"role": "user", "content": user_msg}]`, sent with
`stream=False`. -/
def llama_chat_request (user_msg : String) (history : List ChatMessage) : ChatRequest :=
  { messages := history ++ [{ role := "user", content := user_msg }], stream := false }

/-- `llama_chat` from `app.py`: one completion call on the built prompt; the
returned content is stripped (`.strip()` ↦ `pyStrip`); an exception from
the model propagates. -/
def llama_chat (llm : ChatRequest → Except GenError String)
    (user_msg : String) (history : List ChatMessage) : Except GenError String :=
  (llm (llama_chat_request user_msg history)).map pyStrip

/-- Instrumented `llama_chat` that also records the completion requests it
issues (the single call site runs exactly once). -/
def llama_chat_instr (llm : ChatRequest → Except GenError String)
    (user_msg : String) (history : List ChatMessage) :
    Except GenError String × List ChatRequest :=
  ((llm (llama_chat_request user_msg history)).map pyStrip,
   [llama_chat_request user_msg history])

/-- The session store: `conversation_context[uid]["history"]`, as a total map
defaulting to the empty history (`.get("history", [])` on a `defaultdict`). -/
def Ctx : Type := String → List ChatMessage

/-- The initial (empty) store. -/
def emptyCtx : Ctx := fun _ => []

/-- Point update of the store: `conversation_context[user_id]["history"] = v`. -/
def updateCtx (ctx : Ctx) (key : String) (v : List ChatMessage) : Ctx :=
  fun x => if x = key then v else ctx x

/-- Python `l[-n:]`: the last `n` elements (the whole list when shorter). -/
def takeLast (n : Nat) (l : List α) : List α := l.drop (l.length - n)

/-- The `{"role": "user", "content": msg}` entry appended by the handler. -/
def userEntry (msg : String) : ChatMessage := { role := "user", content := msg }

/-- The `{"role": "assistant", "content": reply}` entry appended by the
handler. -/
def asstEntry (reply : String) : ChatMessage := { role := "assistant", content := reply }

/-- The `/chatbot` route handler of `app.py`.  Inputs: the model as a
function, the wall-clock hour, the request's `message` and `user_id`, and the
current store.  Output: the reply (`Except.error` when the model's exception
propagates out of the handler, which has no try/except) and the new store.
On the fallback path the code extends the stored history with the user and
assistant messages and keeps `hist[-10:]`. -/
def chatbot (llm : ChatRequest → Except GenError String) (hour : Nat)
    (user_msg user_id : String) (ctx : Ctx) : Except GenError String × Ctx :=
  if truthy (handle_intents hour user_msg user_id) then
    (Except.ok ((handle_intents hour user_msg user_id).getD ""), ctx)
  else
    match llama_chat llm user_msg (ctx user_id) with
    | Except.error e => (Except.error e, ctx)
    | Except.ok llama_reply =>
        (Except.ok llama_reply,
         updateCtx ctx user_id
           (takeLast 10 (ctx user_id ++ [userEntry user_msg, asstEntry llama_reply])))

/-- One inbound request: the model behaviour for this call, the wall-clock
hour, and the JSON fields `message` and `user_id`. -/
structure Request where
  llm : ChatRequest → Except GenError String
  hour : Nat
  message : String
  user_id : String

/-- The store after handling one request (the reply is discarded). -/
def step (ctx : Ctx) (r : Request) : Ctx :=
  (chatbot r.llm r.hour r.message r.user_id ctx).2

/-- The store after a whole sequence of requests, starting empty. -/
def run (reqs : List Request) : Ctx :=
  List.foldl step emptyCtx reqs

/-- History shape invariant: pairs of a user message followed by an assistant
message. -/
def pairsUA : List ChatMessage → Bool
  | [] => true
  | [_] => false
  | x :: y :: rest => x.role == "user" && y.role == "assistant" && pairsUA rest

/-- A concrete always-succeeding model, used to instantiate theorems at
concrete inputs. -/
def okLLM : ChatRequest → Except GenError String := fun _ => Except.ok "  a reply  "

/-- A concrete always-failing model (the exception case). -/
def failLLM : ChatRequest → Except GenError String :=
  fun _ => Except.error (GenError.err "model unavailable")

/-! ### Helper lemmas -/

/-- `salutation` is always one of the three fixed strings. -/
theorem salutation_cases (hour : Nat) :
    salutation hour = "Good morning ☀️" ∨ salutation hour = "Good afternoon 🌤️" ∨
    salutation hour = "Good evening 🌙" := by
  unfold salutation
  split
  · exact Or.inl rfl
  · split
    · exact Or.inr (Or.inl rfl)
    · exact Or.inr (Or.inr rfl)

/-- The greet reply is never the empty string. -/
theorem greet_reply_ne (hour : Nat) : salutation hour ++ greetTail ≠ "" := by
  rcases salutation_cases hour with h | h | h <;> rw [h] <;> decide

/-- Any reply `handle_intents` returns is a non-empty string, so Python's
`if intent_reply:` truthiness test coincides with `is not None` here. -/
theorem handle_intents_ne_empty (hour : Nat) (text user_id r : String)
    (h : handle_intents hour text user_id = some r) : r ≠ "" := by
  simp only [handle_intents] at h
  split at h
  · injection h with h2
    subst h2
    exact greet_reply_ne hour
  · split at h
    · injection h with h2
      subst h2
      decide
    · simp at h

/-- On an intent match the handler returns the intent reply and leaves the
store untouched. -/
theorem chatbot_intent_eq (llm : ChatRequest → Except GenError String) (hour : Nat)
    (msg uid : String) (ctx : Ctx) (r : String)
    (h : handle_intents hour msg uid = some r) :
    chatbot llm hour msg uid ctx = (Except.ok r, ctx) := by
  have hr : r ≠ "" := handle_intents_ne_empty hour msg uid r h
  unfold chatbot
  rw [h]
  simp [truthy, hr]

/-! ### Claim theorems: intent path -/

/-- C3: whenever the inbound message matches an intent rule (`handle_intents`
returns a reply), the session store is not updated: the whole store, and in
particular every session's history, is exactly unchanged across the call. -/
theorem intent_path_frame (llm : ChatRequest → Except GenError String) (hour : Nat)
    (msg uid : String) (ctx : Ctx) (r : String)
    (h : handle_intents hour msg uid = some r) :
    (chatbot llm hour msg uid ctx).2 = ctx ∧
    ∀ k : String, (chatbot llm hour msg uid ctx).2 k = ctx k := by
  rw [chatbot_intent_eq llm hour msg uid ctx r h]
  exact ⟨rfl, fun _ => rfl⟩

/-- Witness for C3: the concrete message `"hi"` matches the greet rule and the
store is unchanged. -/
theorem intent_path_frame_witness :
    handle_intents 9 "hi" "u1" =
      some "Good morning ☀️ I'm Isvaryam's assistant. How can I help you?" ∧
    (chatbot okLLM 9 "hi" "u1" emptyCtx).2 = emptyCtx :=
  ⟨by decide,
   (intent_path_frame okLLM 9 "hi" "u1" emptyCtx
      "Good morning ☀️ I'm Isvaryam's assistant. How can I help you?" (by decide)).1⟩

/-- C5: when both the greet predicate and the price predicate hold of the
lowercased input, the earlier-declared rule (greet) wins: `detect_intent`
returns `"greet"` and `handle_intents` returns the greet responder's reply. -/
theorem first_rule_wins (hour : Nat) (uid text : String)
    (hg : greet_pred (pyLower text) = true) (hp : price_pred (pyLower text) = true) :
    detect_intent text = some "greet" ∧
    handle_intents hour text uid = some (salutation hour ++ greetTail) := by
  have hd : detect_intent text = some "greet" := by
    simp [detect_intent, hg]
  have _ := hp
  exact ⟨hd, by simp [handle_intents, hd]⟩

/-- Witness for C5: `"hi price"` satisfies both predicates and gets the greet
reply. -/
theorem first_rule_wins_witness :
    greet_pred (pyLower "hi price") = true ∧ price_pred (pyLower "hi price") = true ∧
    detect_intent "hi price" = some "greet" ∧
    handle_intents 9 "hi price" "u1" = some (salutation 9 ++ greetTail) :=
  ⟨by decide, by decide, first_rule_wins 9 "u1" "hi price" (by decide) (by decide)⟩

/-- C7: for the input `"hi"` at any hour, the reply is the greet reply, which
begins with the time-appropriate salutation (morning before 12, afternoon
before 17, evening otherwise), and the store — in particular the session's
history — is unchanged. -/
theorem hi_greets_any_hour (llm : ChatRequest → Except GenError String) (hour : Nat)
    (uid : String) (ctx : Ctx) :
    chatbot llm hour "hi" uid ctx = (Except.ok (salutation hour ++ greetTail), ctx) ∧
    pyStartsWith (salutation hour ++ greetTail)
      (if hour < 12 then "Good morning"
       else if hour < 17 then "Good afternoon" else "Good evening") = true := by
  have hd : detect_intent "hi" = some "greet" := by decide
  have hh : handle_intents hour "hi" uid = some (salutation hour ++ greetTail) := by
    simp [handle_intents, hd]
  refine ⟨chatbot_intent_eq llm hour "hi" uid ctx _ hh, ?_⟩
  by_cases h12 : hour < 12
  · rw [if_pos h12]
    simp only [salutation, if_pos h12]
    decide
  · rw [if_neg h12]
    by_cases h17 : hour < 17
    · rw [if_pos h17]
      simp only [salutation, if_neg h12, if_pos h17]
      decide
    · rw [if_neg h17]
      simp only [salutation, if_neg h12, if_neg h17]
      decide

/-- C8: any input whose lowercased form contains `"hi"`, `"hello"` or `"hey"`
as a substring — also inside a longer word — is detected as greet and answered
with the greeting; the store is unchanged and the model is never consulted
(the result is the same for every `llm`). -/
theorem greet_substring_dominates (llm : ChatRequest → Except GenError String)
    (hour : Nat) (uid text : String) (ctx : Ctx)
    (hg : greet_pred (pyLower text) = true) :
    detect_intent text = some "greet" ∧
    chatbot llm hour text uid ctx = (Except.ok (salutation hour ++ greetTail), ctx) := by
  have hd : detect_intent text = some "greet" := by
    simp [detect_intent, hg]
  have hh : handle_intents hour text uid = some (salutation hour ++ greetTail) := by
    simp [handle_intents, hd]
  exact ⟨hd, chatbot_intent_eq llm hour text uid ctx _ hh⟩

/-- Witness for C8: `"shipping price"` contains `"hi"` inside `"shipping"`,
so it is answered by the greet rule, not the price rule and not the model. -/
theorem greet_substring_dominates_witness :
    greet_pred (pyLower "shipping price") = true ∧
    detect_intent "shipping price" = some "greet" ∧
    chatbot okLLM 9 "shipping price" "u1" emptyCtx =
      (Except.ok (salutation 9 ++ greetTail), emptyCtx) :=
  ⟨by decide, greet_substring_dominates okLLM 9 "u1" "shipping price" emptyCtx (by decide)⟩

/-! ### Claim theorems: the fallback adapter -/

/-- C6: `llama_chat` issues exactly one completion request, whose message list
is the history followed by one user-role entry with the new message and whose
`stream` flag is false, and returns the completion content stripped of leading
and trailing whitespace. -/
theorem llama_chat_prompt_and_strip (llm : ChatRequest → Except GenError String)
    (user_msg : String) (history : List ChatMessage) :
    (llama_chat_instr llm user_msg history).2 =
      [{ messages := history ++ [{ role := "user", content := user_msg }],
         stream := false }] ∧
    llama_chat llm user_msg history =
      (llm { messages := history ++ [{ role := "user", content := user_msg }],
             stream := false }).map pyStrip ∧
    (llama_chat_instr llm user_msg history).1 = llama_chat llm user_msg history :=
  ⟨rfl, rfl, rfl⟩

/-- A history far larger than the model's context window (4096 messages
against `CTX_SIZE = 2048` tokens). -/
def bigHistory : List ChatMessage :=
  List.replicate 4096 { role := "user", content := "x" }

/-- Counterexample for C4: on a 4096-entry history — whose prompt exceeds the
2048-token context window under any tokenization that charges at least one
token per message — `llama_chat` drops nothing: the request still carries all
4096 entries plus the new user message. -/
theorem llama_chat_no_trim_cex :
    CTX_SIZE < bigHistory.length + 1 ∧
    (llama_chat_request "y" bigHistory).messages =
      bigHistory ++ [{ role := "user", content := "y" }] ∧
    (llama_chat_request "y" bigHistory).messages.length = 4097 := by
  refine ⟨?_, rfl, ?_⟩
  · unfold bigHistory CTX_SIZE
    rw [List.length_replicate]
    omega
  · unfold llama_chat_request bigHistory
    rw [List.length_append, List.length_replicate]
    rfl

/-- C4 amended: the adapter never trims the history to the context window —
for every user message and history (of any length) the request's message list
is exactly the whole history followed by the new user entry, and the result is
the stripped completion of that untrimmed prompt. -/
theorem llama_chat_never_trims (llm : ChatRequest → Except GenError String)
    (user_msg : String) (history : List ChatMessage) :
    (llama_chat_request user_msg history).messages =
      history ++ [{ role := "user", content := user_msg }] ∧
    llama_chat llm user_msg history =
      (llm (llama_chat_request user_msg history)).map pyStrip :=
  ⟨rfl, rfl⟩

/-! ### Claim theorems: the fallback path of the route handler -/

/-- Shape of the handler on a successful fallback: the reply is the stripped
completion and the session's history becomes the last ten entries of the old
history extended with the user/assistant pair. -/
theorem updateCtx_same (ctx : Ctx) (k : String) (v : List ChatMessage) :
    updateCtx ctx k v k = v := by
  simp [updateCtx]

theorem chatbot_fallback_ok (llm : ChatRequest → Except GenError String) (hour : Nat)
    (msg uid : String) (ctx : Ctx) (out : String)
    (hno : truthy (handle_intents hour msg uid) = false)
    (hok : llm (llama_chat_request msg (ctx uid)) = Except.ok out) :
    chatbot llm hour msg uid ctx =
      (Except.ok (pyStrip out),
       updateCtx ctx uid
         (takeLast 10 (ctx uid ++ [userEntry msg, asstEntry (pyStrip out)]))) := by
  unfold chatbot
  simp only [hno, Bool.false_eq_true, if_false]
  unfold llama_chat
  rw [hok]
  rfl

/-- `takeLast` returns `min n (length l)` elements. -/
theorem length_takeLast (n : Nat) (l : List α) : (takeLast n l).length = min n l.length := by
  unfold takeLast
  rw [List.length_drop]
  omega

/-- C1: after a history write on the fallback path, the session's history has
length `min (previous_length + 2) 10`, never exceeds 10, and is exactly the
most recent entries, in order, of the old history extended with the new
user/assistant pair (the dropped prefix is the oldest entries). -/
theorem history_write_cap (llm : ChatRequest → Except GenError String) (hour : Nat)
    (msg uid : String) (ctx : Ctx) (out : String)
    (hno : truthy (handle_intents hour msg uid) = false)
    (hok : llm (llama_chat_request msg (ctx uid)) = Except.ok out) :
    ((chatbot llm hour msg uid ctx).2 uid).length = min ((ctx uid).length + 2) 10 ∧
    ((chatbot llm hour msg uid ctx).2 uid).length ≤ 10 ∧
    (chatbot llm hour msg uid ctx).2 uid =
      (ctx uid ++ [userEntry msg, asstEntry (pyStrip out)]).drop
        ((ctx uid).length + 2 - 10) ∧
    ctx uid ++ [userEntry msg, asstEntry (pyStrip out)] =
      (ctx uid ++ [userEntry msg, asstEntry (pyStrip out)]).take
        ((ctx uid).length + 2 - 10) ++ (chatbot llm hour msg uid ctx).2 uid := by
  rw [chatbot_fallback_ok llm hour msg uid ctx out hno hok]
  simp only [updateCtx_same]
  have hlen : (ctx uid ++ [userEntry msg, asstEntry (pyStrip out)]).length =
      (ctx uid).length + 2 := by
    simp
  refine ⟨?_, ?_, ?_, ?_⟩
  · rw [length_takeLast, hlen]
    omega
  · rw [length_takeLast, hlen]
    omega
  · unfold takeLast
    rw [hlen]
  · unfold takeLast
    rw [hlen]
    exact (List.take_append_drop _ _).symm

/-- Witness for C1: a concrete fallback round-trip on an empty history stores
exactly the two new entries. -/
theorem history_write_cap_witness :
    truthy (handle_intents 9 "zzz" "u1") = false ∧
    okLLM (llama_chat_request "zzz" (emptyCtx "u1")) = Except.ok "  a reply  " ∧
    ((chatbot okLLM 9 "zzz" "u1" emptyCtx).2 "u1").length =
      min ((emptyCtx "u1").length + 2) 10 :=
  ⟨by decide, rfl,
   (history_write_cap okLLM 9 "zzz" "u1" emptyCtx "  a reply  " (by decide) rfl).1⟩

/-- Counterexample for C2: with a failing model and the non-intent message
`"zzz"`, the handler's result is the propagated exception — the caller gets no
degraded-service reply string at all (the route has no try/except). -/
theorem generation_error_cex :
    (chatbot failLLM 10 "zzz" "u1" emptyCtx).1 =
      Except.error (GenError.err "model unavailable") ∧
    (chatbot failLLM 10 "zzz" "u1" emptyCtx).2 "u1" = [] := by
  constructor <;> rfl

/-- C2 amended: if the generative fallback call fails, the exception
propagates out of the route handler unchanged (there is no fixed degraded
reply), and the whole store — in particular the session's history — is left
unmodified. -/
theorem generation_error_propagates (llm : ChatRequest → Except GenError String)
    (hour : Nat) (msg uid : String) (ctx : Ctx) (e : GenError)
    (hno : truthy (handle_intents hour msg uid) = false)
    (herr : llm (llama_chat_request msg (ctx uid)) = Except.error e) :
    chatbot llm hour msg uid ctx = (Except.error e, ctx) := by
  unfold chatbot
  simp only [hno, Bool.false_eq_true, if_false]
  unfold llama_chat
  rw [herr]
  rfl

/-- Witness for C2's amended theorem at a concrete failing model. -/
theorem generation_error_propagates_witness :
    truthy (handle_intents 10 "zzz" "u2") = false ∧
    failLLM (llama_chat_request "zzz" (emptyCtx "u2")) =
      Except.error (GenError.err "model unavailable") ∧
    chatbot failLLM 10 "zzz" "u2" emptyCtx =
      (Except.error (GenError.err "model unavailable"), emptyCtx) :=
  ⟨by decide, rfl,
   generation_error_propagates failLLM 10 "zzz" "u2" emptyCtx
     (GenError.err "model unavailable") (by decide) rfl⟩

/-- Dropping fewer elements than the list's length preserves the last
element. -/
theorem getLast?_drop_of_lt : ∀ (l : List α) (k : Nat), k < l.length →
    (l.drop k).getLast? = l.getLast?
  | _, 0, _ => rfl
  | [], k + 1, h => by simp at h
  | a :: tl, k + 1, h => by
    rw [List.drop_succ_cons]
    have htl : k < tl.length := by
      simpa using Nat.lt_of_succ_lt_succ h
    rw [getLast?_drop_of_lt tl k htl]
    cases tl with
    | nil => simp at htl
    | cons b tl2 => rw [List.getLast?_cons_cons]

/-- C10: on a successful fallback, the reply returned to the caller is exactly
the content of the last (assistant-role) entry stored in that session's
history by the same request. -/
theorem fallback_reply_is_last_stored (llm : ChatRequest → Except GenError String)
    (hour : Nat) (msg uid : String) (ctx : Ctx) (out : String)
    (hno : truthy (handle_intents hour msg uid) = false)
    (hok : llm (llama_chat_request msg (ctx uid)) = Except.ok out) :
    (chatbot llm hour msg uid ctx).1 = Except.ok (pyStrip out) ∧
    ((chatbot llm hour msg uid ctx).2 uid).getLast? = some (asstEntry (pyStrip out)) := by
  rw [chatbot_fallback_ok llm hour msg uid ctx out hno hok]
  refine ⟨rfl, ?_⟩
  simp only [updateCtx_same]
  unfold takeLast
  have hlen : (ctx uid ++ [userEntry msg, asstEntry (pyStrip out)]).length =
      (ctx uid).length + 2 := by
    simp
  have hk : (ctx uid ++ [userEntry msg, asstEntry (pyStrip out)]).length - 10 <
      (ctx uid ++ [userEntry msg, asstEntry (pyStrip out)]).length := by
    omega
  rw [getLast?_drop_of_lt _ _ hk]
  have hsplit : ctx uid ++ [userEntry msg, asstEntry (pyStrip out)] =
      (ctx uid ++ [userEntry msg]) ++ [asstEntry (pyStrip out)] := by
    simp
  rw [hsplit, List.getLast?_concat]

/-- Witness for C10 at a concrete fallback round-trip. -/
theorem fallback_reply_is_last_stored_witness :
    truthy (handle_intents 9 "zzz" "u3") = false ∧
    okLLM (llama_chat_request "zzz" (emptyCtx "u3")) = Except.ok "  a reply  " ∧
    (chatbot okLLM 9 "zzz" "u3" emptyCtx).1 = Except.ok (pyStrip "  a reply  ") ∧
    ((chatbot okLLM 9 "zzz" "u3" emptyCtx).2 "u3").getLast? =
      some (asstEntry (pyStrip "  a reply  ")) :=
  ⟨by decide, rfl,
   fallback_reply_is_last_stored okLLM 9 "zzz" "u3" emptyCtx "  a reply  " (by decide) rfl⟩

/-! ### Claim theorems: the shape of stored histories over whole traces -/

/-- `pairsUA` is closed under appending a `pairsUA` list. -/
theorem pairsUA_append : ∀ (l l2 : List ChatMessage),
    pairsUA l = true → pairsUA l2 = true → pairsUA (l ++ l2) = true
  | [], _, _, h2 => h2
  | [_], _, h, _ => by simp [pairsUA] at h
  | x :: y :: rest, l2, h, h2 => by
    simp only [pairsUA, Bool.and_eq_true] at h
    simp only [List.cons_append, pairsUA, Bool.and_eq_true]
    exact ⟨h.1, pairsUA_append rest l2 h.2 h2⟩

/-- A `pairsUA` list has even length. -/
theorem pairsUA_even : ∀ l : List ChatMessage, pairsUA l = true → Even l.length
  | [], _ => ⟨0, rfl⟩
  | [_], h => by simp [pairsUA] at h
  | _ :: _ :: rest, h => by
    simp only [pairsUA, Bool.and_eq_true] at h
    obtain ⟨k, hk⟩ := pairsUA_even rest h.2
    exact ⟨k + 1, by simp only [List.length_cons, hk]; omega⟩

/-- Dropping an even number of entries preserves `pairsUA`. -/
theorem pairsUA_drop_even : ∀ (k : Nat) (l : List ChatMessage),
    pairsUA l = true → pairsUA (l.drop (2 * k)) = true
  | 0, _, h => by simpa using h
  | _ + 1, [], _ => by simp [pairsUA]
  | _ + 1, [_], h => by simp [pairsUA] at h
  | k + 1, x :: y :: rest, h => by
    simp only [pairsUA, Bool.and_eq_true] at h
    have h2 : 2 * (k + 1) = 2 * k + 1 + 1 := by omega
    rw [h2, List.drop_succ_cons, List.drop_succ_cons]
    exact pairsUA_drop_even k rest h.2

/-- The history write of the handler preserves `pairsUA`: appending a
user/assistant pair and keeping the last ten entries. -/
theorem pairsUA_write (m c : String) (l : List ChatMessage) (h : pairsUA l = true) :
    pairsUA (takeLast 10 (l ++ [userEntry m, asstEntry c])) = true := by
  have hpair : pairsUA [userEntry m, asstEntry c] = true := by
    simp [pairsUA, userEntry, asstEntry]
  have hfull := pairsUA_append l _ h hpair
  have heven := pairsUA_even _ hfull
  have hevensub : Even ((l ++ [userEntry m, asstEntry c]).length - 10) := by
    rcases Nat.le_total 10 (l ++ [userEntry m, asstEntry c]).length with hle | hle
    · rw [Nat.even_sub hle]
      constructor
      · intro _
        decide
      · intro _
        exact heven
    · have h0 : (l ++ [userEntry m, asstEntry c]).length - 10 = 0 := by omega
      rw [h0]
      exact ⟨0, rfl⟩
  obtain ⟨k, hk⟩ := hevensub
  unfold takeLast
  have h2k : (l ++ [userEntry m, asstEntry c]).length - 10 = 2 * k := by omega
  rw [h2k]
  exact pairsUA_drop_even k _ hfull

/-- One request preserves the `pairsUA` invariant of every session. -/
theorem pairsUA_step (ctx : Ctx) (r : Request) (h : ∀ u, pairsUA (ctx u) = true) :
    ∀ u, pairsUA (step ctx r u) = true := by
  intro u
  unfold step chatbot
  split
  · exact h u
  · split
    · exact h u
    · show pairsUA (updateCtx ctx r.user_id _ u) = true
      unfold updateCtx
      split
      · exact pairsUA_write _ _ _ (h r.user_id)
      · exact h u

/-- The invariant holds after any request sequence from any invariant state. -/
theorem run_pairsUA_aux : ∀ (reqs : List Request) (ctx : Ctx),
    (∀ u, pairsUA (ctx u) = true) → ∀ u, pairsUA (List.foldl step ctx reqs u) = true
  | [], _, h => h
  | r :: rs, ctx, h => run_pairsUA_aux rs (step ctx r) (pairsUA_step ctx r h)

/-- C9: after any sequence of requests the stored history of every session
consists of user/assistant pairs — the roles strictly alternate, starting
with a user entry, and the length is even. -/
theorem history_even_alternating (reqs : List Request) (uid : String) :
    pairsUA (run reqs uid) = true ∧ Even (run reqs uid).length := by
  have h := run_pairsUA_aux reqs emptyCtx (fun _ => rfl) uid
  exact ⟨h, pairsUA_even _ h⟩

end Isvaryam
